import Mathlib

/-!
Shallow embedding of the job-screening frontend (React/TypeScript) and of the
backend evaluation-job contract it consumes.

Sources embedded:
- frontend/src/types/index.ts            (data model types)
- frontend/src/pages/JobsPage.tsx        (formatMatchRate, handleEvaluate,
                                          pollResult, filtering/pagination)
- frontend/src/context/AuthContext.tsx   (AuthProvider: login/logout)
- frontend/src/lib/api.ts                (clearAuthHeaders)

JavaScript numbers are modelled as rationals (ℚ), strings as Lean `String`,
`undefined | null` holes as `Option`, and `localStorage` as a total map
`String → Option String`.
-/

namespace JobScreening

/-- The four status values of the union type
`"queued" | "processing" | "completed" | "failed"` in types/index.ts. -/
inductive JobStatus where
  | queued
  | processing
  | completed
  | failed
deriving DecidableEq, Repr

/-- EvaluationResult from types/index.ts.  The `Record<string, number>` maps
are modelled as association lists; `field?: T | null` becomes `Option T`
(`undefined` and `null` both map to `none`). -/
structure EvaluationResult where
  cv_match_rate : ℚ
  cv_feedback : String
  project_score : ℚ
  project_feedback : String
  overall_summary : String
  cv_parameter_scores : Option (List (String × ℚ))
  project_parameter_scores : Option (List (String × ℚ))
  raw_context : Option (List (String × String))
deriving DecidableEq, Repr

/-- EvaluationStatus from types/index.ts. -/
structure EvaluationStatus where
  id : String
  status : JobStatus
  result : Option EvaluationResult
  error : Option String
  queued_at : Option String
  started_at : Option String
  finished_at : Option String
deriving DecidableEq, Repr

/-- JavaScript truthiness of an optional string: truthy exactly when present
and non-empty (`""`, `null`, `undefined` are falsy). -/
def jsStrTruthy : Option String → Bool
  | none => false
  | some s => s ≠ ""

/-- JavaScript truthiness of an optional number: truthy exactly when present
and nonzero (`0`, `null`, `undefined` are falsy). -/
def jsNumTruthy : Option Int → Bool
  | none => false
  | some n => n ≠ 0

/-- JavaScript `Math.round` on a rational: round half toward positive
infinity, i.e. `⌊q + 1/2⌋`.  Computed on the numerator/denominator so that
the kernel can evaluate it; `jsRound_eq_floor_add_half` below shows it is
exactly `⌊q + 1/2⌋`. -/
def jsRound (q : ℚ) : Int := Rat.floor (mkRat (2 * q.num + q.den) (2 * q.den))

/-- Rendering of a JavaScript number by `${...}` template interpolation.
Integral values render as their decimal integer form, exactly as in JS; the
rendering of non-integral values is abstracted by the rational's own
representation. -/
def jsNumRepr (q : ℚ) : String := if q.den = 1 then toString q.num else toString q

/-- `formatMatchRate` from JobsPage.tsx:
`value === undefined || value === null` → "N/A";
`value <= 1` → `${Math.round(value * 100)}%`; otherwise `${value}%`. -/
def formatMatchRate : Option ℚ → String
  | none => "N/A"
  | some value => if value ≤ 1 then toString (jsRound (value * 100)) ++ "%" else jsNumRepr value ++ "%"

/-- Modelled from the spec: the backend `EvaluationJob` record (spec §3 and
§6) is not part of the frontend sources; it carries identity, status, a
result payload that is non-null iff the status is completed, and an error
message that is non-null iff the status is failed, plus the three
timestamps. -/
structure EvaluationJob where
  id : String
  status : JobStatus
  result : Option EvaluationResult
  error : Option String
  queued_at : Option String
  started_at : Option String
  finished_at : Option String
deriving DecidableEq, Repr

/-- Modelled from the spec: the poll endpoint
`GET /evaluation/result/{id}` serializes the job record field-for-field
into the `EvaluationStatus` shape the frontend consumes (spec §6). -/
def pollResponse (j : EvaluationJob) : EvaluationStatus :=
  ⟨j.id, j.status, j.result, j.error, j.queued_at, j.started_at, j.finished_at⟩

/-- The evaluation card in JobsPage.tsx renders the result body under the
guard `evaluationStatus.result && ...`: truthy exactly when the optional
object is present. -/
def rendersResultBody (s : EvaluationStatus) : Bool := s.result.isSome

/-- The evaluation card in JobsPage.tsx renders the error paragraph under
the guard `evaluationStatus.error && ...`: truthy exactly when the optional
string is present and non-empty. -/
def rendersErrorParagraph (s : EvaluationStatus) : Bool := jsStrTruthy s.error

/-- Modelled from the spec: the backend job-state machine (spec §4.7),
`queued → processing → completed` or `queued → processing → failed`, with
no transition out of a terminal state.  The transition code itself lives in
the backend worker, outside the frontend sources. -/
inductive StatusStep : JobStatus → JobStatus → Prop
  | claim_job : StatusStep .queued .processing
  | finish_completed : StatusStep .processing .completed
  | finish_failed : StatusStep .processing .failed

/-- Position of a status along the `queued → processing → terminal` chain. -/
def statusRank : JobStatus → Nat
  | .queued => 0
  | .processing => 1
  | .completed => 2
  | .failed => 2

/-- A status is terminal when it is `completed` or `failed` (glossary of the
spec; the disjunction tested by `pollResult` in JobsPage.tsx). -/
def isTerminal (st : JobStatus) : Bool := st = .completed || st = .failed

/-! Evaluation submission (`handleEvaluate` in JobsPage.tsx). -/

/-- JobDetail from types/index.ts (JobSummary plus description and
requirements). -/
structure JobDetail where
  id : Int
  job_code : String
  title : String
  location : Option String
  salary_range : Option String
  created_at : String
  description : String
  requirements : String
deriving DecidableEq, Repr

/-- DocumentUploadResponse from types/index.ts: the two document ids
returned by `POST /applications/upload`. -/
structure DocumentUploadResponse where
  cv_document_id : String
  project_document_id : String
deriving DecidableEq, Repr

/-- The JSON body `handleEvaluate` posts to `/evaluation/evaluate`: the
object literal has exactly these four fields. -/
structure EvaluateRequestBody where
  job_title : String
  job_id : Option Int
  cv_document_id : String
  project_document_id : String
deriving DecidableEq, Repr

/-- A selected PDF file; only its identity matters to the embedding. -/
structure PdfFile where
  name : String
deriving DecidableEq, Repr

/-- The component state `handleEvaluate` reads: auth flag, the two file
inputs, the selected job id, the fetched job detail, and the "Override job
title" input value. -/
structure EvalFormState where
  isAuthenticated : Bool
  cvFile : Option PdfFile
  projectFile : Option PdfFile
  selectedJobId : Option Int
  jobDetail : Option JobDetail
  customJobTitle : String
deriving DecidableEq, Repr

/-- Removal of leading whitespace characters from a character list. -/
def dropLeadingWs : List Char → List Char
  | [] => []
  | c :: cs => if c.isWhitespace then dropLeadingWs cs else c :: cs

/-- JavaScript `String.prototype.trim`: strip whitespace from both ends. -/
def jsTrim (s : String) : String :=
  ⟨(dropLeadingWs (dropLeadingWs s.data).reverse).reverse⟩

/-- The title expression in `handleEvaluate`:
`(selectedJobId && jobDetail?.title) || customJobTitle.trim()`.
`selectedJobId` is truthy when non-null and nonzero; `jobDetail?.title` is
truthy when the detail is loaded and its title is non-empty; otherwise the
`||` falls through to the trimmed custom title. -/
def effectiveJobTitle (s : EvalFormState) : String :=
  if jsNumTruthy s.selectedJobId then
    match s.jobDetail with
    | some d => if d.title ≠ "" then d.title else jsTrim s.customJobTitle
    | none => jsTrim s.customJobTitle
  else jsTrim s.customJobTitle

/-- Outcome of the guarded part of `handleEvaluate`: either an early return
behind one of the three toast-error guards (no network request at all), or
a submission whose body is built from the upload response. -/
inductive EvalSubmitOutcome where
  | blocked (message : String)
  | submitted (body : EvaluateRequestBody)
deriving DecidableEq, Repr

/-- `handleEvaluate` from JobsPage.tsx, up to the `/evaluation/evaluate`
POST: the three early-return guards in source order, then the request body
`{job_title, job_id, cv_document_id, project_document_id}` built from the
`/applications/upload` response. -/
def handleEvaluateSubmit (s : EvalFormState) (upload : DocumentUploadResponse) :
    EvalSubmitOutcome :=
  if !s.isAuthenticated then .blocked "Please login to run evaluations."
  else if s.cvFile.isNone || s.projectFile.isNone then
    .blocked "Attach both CV and project report PDFs."
  else if effectiveJobTitle s = "" then .blocked "Provide a job title or pick a job first."
  else .submitted ⟨effectiveJobTitle s, s.selectedJobId, upload.cv_document_id,
    upload.project_document_id⟩

/-- Effects of a successful submission (JobsPage.tsx lines 205–207):
`setEvaluationStatus(data)` then `pollResult(data.id)`. -/
structure SubmitEffects where
  displayedStatus : Option EvaluationStatus
  polledJobId : Option String
deriving DecidableEq, Repr

/-- The submission response becomes the displayed status and seeds the
polling loop with its id. -/
def afterSubmitSuccess (resp : EvaluationStatus) : SubmitEffects :=
  ⟨some resp, some resp.id⟩

/-! Polling (`pollResult` in JobsPage.tsx). -/

/-- Toast notifications raised by the evaluation flow. -/
inductive ToastMsg where
  | infoQueued
  | successCompleted
  | errorText (message : String)
deriving DecidableEq, Repr

/-- What one iteration of the `poll` closure does after a successful GET:
either schedule the next iteration via `setTimeout` or stop. -/
inductive PollOutcome where
  | scheduleNext (delayMs : Nat)
  | stop (clearEvaluating : Bool) (refreshApps : Bool) (toast : Option ToastMsg)
deriving DecidableEq, Repr

/-- One successful iteration of `poll` in `pollResult`: on a terminal
status it clears `isEvaluating`, refreshes the applications list, raises
the success toast on `completed` or the error toast when a truthy `error`
accompanies `failed`, and schedules nothing; otherwise it schedules the
next poll 4000 ms later. -/
def pollIteration (data : EvaluationStatus) : PollOutcome :=
  if isTerminal data.status then
    .stop true true
      (if data.status = .completed then some .successCompleted
       else if jsStrTruthy data.error then some (.errorText (data.error.getD ""))
       else none)
  else .scheduleNext 4000

/-- The statuses a polling run actually observes, given the sequence of
responses the server would hand to successive polls: the run consumes
responses until the first terminal one, inclusive, and stops there. -/
def pollTrace : List EvaluationStatus → List EvaluationStatus
  | [] => []
  | d :: rest => if isTerminal d.status then [d] else d :: pollTrace rest

/-! Job filtering and pagination (JobsPage.tsx). -/

/-- JobSummary from types/index.ts. -/
structure JobSummary where
  id : Int
  job_code : String
  title : String
  location : Option String
  salary_range : Option String
  created_at : String
deriving DecidableEq, Repr

/-- Whether `needle` occurs contiguously at the head of `hay`
(character-list core of JavaScript `String.prototype.includes`). -/
def leadMatch : List Char → List Char → Bool
  | [], _ => true
  | _ :: _, [] => false
  | a :: as, b :: bs => a = b && leadMatch as bs

/-- Whether `needle` occurs contiguously anywhere in the list. -/
def subSearch (needle : List Char) : List Char → Bool
  | [] => needle.isEmpty
  | c :: rest => leadMatch needle (c :: rest) || subSearch needle rest

/-- JavaScript `hay.includes(needle)` on strings. -/
def jsIncludes (hay needle : String) : Bool := subSearch needle.toList hay.toList

/-- JavaScript `toLowerCase()`, modelled characterwise. -/
def jsToLower (s : String) : String := ⟨s.data.map Char.toLower⟩

/-- The predicate of the `filteredJobs` memo in JobsPage.tsx: the title
must contain the title search and `location || ""` must contain the
location search, both case-insensitively. -/
def jobMatchesFilters (j : JobSummary) (searchTitle searchLocation : String) : Bool :=
  jsIncludes (jsToLower j.title) (jsToLower searchTitle) &&
    jsIncludes (jsToLower (j.location.getD "")) (jsToLower searchLocation)

/-- `filteredJobs` from JobsPage.tsx. -/
def filteredJobs (jobs : List JobSummary) (searchTitle searchLocation : String) :
    List JobSummary :=
  jobs.filter (fun j => jobMatchesFilters j searchTitle searchLocation)

/-- `PAGE_SIZE` from JobsPage.tsx. -/
def PAGE_SIZE : Nat := 5

/-- `totalPages = Math.max(1, Math.ceil(filteredJobs.length / PAGE_SIZE))`. -/
def totalPages (count : Nat) : Nat := max 1 ((count + PAGE_SIZE - 1) / PAGE_SIZE)

/-- The slice of component state that drives the job list: the fetched
jobs, the two search inputs, and `currentPage`. -/
structure PageModel where
  jobs : List JobSummary
  searchTitle : String
  searchLocation : String
  currentPage : Nat
deriving DecidableEq, Repr

/-- The filtered list for the current model. -/
def PageModel.filtered (m : PageModel) : List JobSummary :=
  filteredJobs m.jobs m.searchTitle m.searchLocation

/-- `totalPages` for the current model. -/
def PageModel.pages (m : PageModel) : Nat := totalPages m.filtered.length

/-- `paginatedJobs`: `filteredJobs.slice(start, start + PAGE_SIZE)` with
`start = (currentPage - 1) * PAGE_SIZE`. -/
def paginatedJobs (m : PageModel) : List JobSummary :=
  (m.filtered.drop ((m.currentPage - 1) * PAGE_SIZE)).take PAGE_SIZE

/-- The effect at JobsPage.tsx lines 149–153: when `currentPage` exceeds
`totalPages`, reduce it to `totalPages`. -/
def clampPage (m : PageModel) : PageModel :=
  if m.currentPage > m.pages then { m with currentPage := m.pages } else m

/-- The events that change the job-list state: a jobs refetch, a change of
the search inputs (which resets the page to 1 via the effect at lines
133–135), and the Previous/Next buttons (which clamp to `[1, totalPages]`
in their click handlers). -/
inductive PageEvent where
  | setJobs (jobs : List JobSummary)
  | setFilters (searchTitle searchLocation : String)
  | prevPage
  | nextPage

/-- One event followed by the clamping effect, which React runs before the
next user interaction is processed. -/
def stepPage (m : PageModel) : PageEvent → PageModel
  | .setJobs js => clampPage { m with jobs := js }
  | .setFilters st sl =>
      clampPage { m with searchTitle := st, searchLocation := sl, currentPage := 1 }
  | .prevPage => clampPage { m with currentPage := max 1 (m.currentPage - 1) }
  | .nextPage => clampPage { m with currentPage := min m.pages (m.currentPage + 1) }

/-- The initial component state: no jobs, empty filters, page 1. -/
def initialPageModel : PageModel := ⟨[], "", "", 1⟩

/-! Authentication (AuthContext.tsx and lib/api.ts). -/

/-- AuthTokens from types/index.ts. -/
structure AuthTokens where
  access : String
  refresh : String
deriving DecidableEq, Repr

/-- `localStorage`, modelled as a total map from keys to optional values. -/
def Store := String → Option String

/-- `localStorage.setItem`. -/
def setItem (st : Store) (key value : String) : Store :=
  fun k => if k = key then some value else st k

/-- `localStorage.removeItem`. -/
def removeItem (st : Store) (key : String) : Store :=
  fun k => if k = key then none else st k

/-- The auth context state: the token pair, the user email, and the
backing `localStorage`. -/
structure AuthState where
  tokens : Option AuthTokens
  userEmail : Option String
  storage : Store

/-- `clearAuthHeaders` from lib/api.ts: removes the `accessToken` and
`refreshToken` keys, nothing else. -/
def clearAuthHeaders (st : Store) : Store :=
  removeItem (removeItem st "accessToken") "refreshToken"

/-- `logout` from AuthContext.tsx: null out tokens and email, call
`clearAuthHeaders`, then remove the three keys from `localStorage`. -/
def logout (s : AuthState) : AuthState :=
  { tokens := none
    userEmail := none
    storage :=
      removeItem
        (removeItem (removeItem (clearAuthHeaders s.storage) "accessToken") "refreshToken")
        "userEmail" }

/-- `login` from AuthContext.tsx: store the tokens, write both token keys,
and when the optional email argument is truthy also record it. -/
def login (s : AuthState) (nextTokens : AuthTokens) (email : Option String) : AuthState :=
  let st := setItem (setItem s.storage "accessToken" nextTokens.access)
    "refreshToken" nextTokens.refresh
  if jsStrTruthy email then
    { tokens := some nextTokens, userEmail := email
      storage := setItem st "userEmail" (email.getD "") }
  else
    { tokens := some nextTokens, userEmail := s.userEmail, storage := st }

/-- `isAuthenticated: Boolean(tokens?.access)` from AuthContext.tsx. -/
def isAuthenticated (s : AuthState) : Bool :=
  match s.tokens with
  | none => false
  | some t => t.access ≠ ""

/-- A concrete store used to instantiate frame theorems. -/
def sampleStore : Store :=
  fun k => if k = "userEmail" then some "dev@example.com" else none

/-- A concrete auth state used to instantiate the auth theorems. -/
def sampleAuthState : AuthState :=
  ⟨some ⟨"tok-a", "tok-r"⟩, some "dev@example.com", sampleStore⟩

/-- A concrete evaluation result used to instantiate theorems. -/
def sampleResult : EvaluationResult :=
  ⟨mkRat 4 5, "solid CV", 8, "good project", "hire", none, none, none⟩

/-- A concrete well-formed completed backend job. -/
def sampleCompletedJob : EvaluationJob :=
  ⟨"job-1", .completed, some sampleResult, none, some "t0", some "t1", some "t2"⟩
/-- A concrete form state: authenticated, both files attached, job 1
selected with a loaded detail. -/
def sampleFormState : EvalFormState :=
  ⟨true, some ⟨"cv.pdf"⟩, some ⟨"report.pdf"⟩, some 1,
    some ⟨1, "be-001", "Backend Engineer", some "Remote", none, "t", "d", "r"⟩, ""⟩

/-- A concrete upload response. -/
def sampleUpload : DocumentUploadResponse := ⟨"doc-cv", "doc-proj"⟩

/-- A concrete job summary used to instantiate the pagination theorems. -/
def sampleJob : JobSummary := ⟨1, "be-001", "Backend Engineer", some "Remote", none, "t"⟩

/-- A concrete page model holding the sample job. -/
def samplePageModel : PageModel := ⟨[sampleJob], "", "", 1⟩

end JobScreening

namespace JobScreening

/-- Fidelity of `jsRound`: it is exactly `⌊q + 1/2⌋`, JavaScript's
`Math.round` on rationals. -/
theorem jsRound_eq_floor_add_half (q : ℚ) : jsRound q = ⌊q + 1/2⌋ := by
  unfold jsRound
  have hfl : Rat.floor (mkRat (2 * q.num + q.den) (2 * q.den)) =
      ⌊mkRat (2 * q.num + q.den) (2 * q.den)⌋ :=
    (Rat.floor_def' _).trans Rat.floor_def.symm
  rw [hfl]
  congr 1
  rw [Rat.mkRat_eq_div]
  have hd0 : ((q.den : ℚ)) ≠ 0 := by
    exact_mod_cast Nat.cast_ne_zero.mpr q.den_nz
  have hden : ((2 * q.den : ℕ) : ℚ) ≠ 0 := by
    exact_mod_cast Nat.cast_ne_zero.mpr (Nat.mul_ne_zero (by norm_num) q.den_nz)
  have hq : (q.num : ℚ) = q * q.den := (div_eq_iff hd0).mp (Rat.num_div_den q)
  field_simp
  rw [hq]
  ring

/-- Claim C1: formatMatchRate returns "N/A" on an absent value, renders a
value at most 1 as the rounded percentage of the fraction, renders a value
above 1 as the value itself with a percent sign, and in particular renders
the value exactly 1 as "100%", never as "1%". -/
theorem formatMatchRate_scale_inference :
    formatMatchRate none = "N/A" ∧
    (∀ v : ℚ, v ≤ 1 → formatMatchRate (some v) = toString (jsRound (v * 100)) ++ "%") ∧
    (∀ v : ℚ, 1 < v → formatMatchRate (some v) = jsNumRepr v ++ "%") ∧
    formatMatchRate (some 1) = "100%" ∧ formatMatchRate (some 1) ≠ "1%" := by
  refine ⟨rfl, ?_, ?_, ?_, ?_⟩
  · intro v hv
    simp [formatMatchRate, if_pos hv]
  · intro v hv
    simp [formatMatchRate, if_neg (not_le.mpr hv)]
  · have h : formatMatchRate (some 1) = toString (jsRound ((1:ℚ) * 100)) ++ "%" := by
      simp [formatMatchRate]
    rw [h, one_mul]
    decide
  · have h : formatMatchRate (some 1) = toString (jsRound ((1:ℚ) * 100)) ++ "%" := by
      simp [formatMatchRate]
    rw [h, one_mul]
    decide

/-- Witness for C1 at the concrete values 1/2 and 2. -/
theorem formatMatchRate_scale_inference_witness :
    formatMatchRate (some (mkRat 1 2)) = toString (jsRound (mkRat 1 2 * 100)) ++ "%" ∧
    formatMatchRate (some 2) = jsNumRepr 2 ++ "%" :=
  ⟨formatMatchRate_scale_inference.2.1 (mkRat 1 2) (by decide),
   formatMatchRate_scale_inference.2.2.1 2 (by decide)⟩

/-- Claim C2: for a well-formed backend job, the polled payload has a
result exactly when the status is completed and an error exactly when the
status is failed, and the evaluation card renders the result body exactly
when the result is present and the error paragraph exactly when the error
is a non-empty string. -/
theorem poll_result_error_presence (j : EvaluationJob)
    (hres : j.result.isSome = true ↔ j.status = .completed)
    (herr : j.error.isSome = true ↔ j.status = .failed) :
    ((pollResponse j).result.isSome = true ↔ (pollResponse j).status = .completed) ∧
    ((pollResponse j).error.isSome = true ↔ (pollResponse j).status = .failed) ∧
    (rendersResultBody (pollResponse j) = true ↔ (pollResponse j).result.isSome = true) ∧
    (rendersErrorParagraph (pollResponse j) = true ↔
      ∃ e, (pollResponse j).error = some e ∧ e ≠ "") := by
  refine ⟨hres, herr, Iff.rfl, ?_⟩
  unfold rendersErrorParagraph pollResponse jsStrTruthy
  cases h : j.error with
  | none => simp [h]
  | some e =>
    simp only [h]
    constructor
    · intro he
      exact ⟨e, rfl, by simpa using he⟩
    · rintro ⟨e2, he2, hne⟩
      cases he2
      simpa using hne

/-- Witness for C2: a completed job carrying a result and no error. -/
theorem poll_result_error_presence_witness :
    ((pollResponse sampleCompletedJob).result.isSome = true ↔
      (pollResponse sampleCompletedJob).status = .completed) ∧
    ((pollResponse sampleCompletedJob).error.isSome = true ↔
      (pollResponse sampleCompletedJob).status = .failed) ∧
    (rendersResultBody (pollResponse sampleCompletedJob) = true ↔
      (pollResponse sampleCompletedJob).result.isSome = true) ∧
    (rendersErrorParagraph (pollResponse sampleCompletedJob) = true ↔
      ∃ e, (pollResponse sampleCompletedJob).error = some e ∧ e ≠ "") :=
  poll_result_error_presence sampleCompletedJob (by decide) (by decide)

/-- Claim C3: every status is one of the four enumerated values, a single
transition only moves queued to processing or processing to a terminal
state, nothing leaves a terminal state, a job never jumps from queued
straight to a terminal state, and along any transition chain the status
only advances and sticks at a terminal value. -/
theorem status_lifecycle :
    (∀ s : JobStatus, s = .queued ∨ s = .processing ∨ s = .completed ∨ s = .failed) ∧
    (∀ a b, StatusStep a b →
      (a = .queued ∧ b = .processing) ∨
      (a = .processing ∧ (b = .completed ∨ b = .failed))) ∧
    (∀ b, ¬ StatusStep .completed b) ∧
    (∀ b, ¬ StatusStep .failed b) ∧
    (∀ b, StatusStep .queued b → b = .processing) ∧
    (∀ a b, Relation.ReflTransGen StatusStep a b → statusRank a ≤ statusRank b) ∧
    (∀ b, Relation.ReflTransGen StatusStep .completed b → b = .completed) ∧
    (∀ b, Relation.ReflTransGen StatusStep .failed b → b = .failed) := by
  have hchar : ∀ a b, StatusStep a b →
      (a = .queued ∧ b = .processing) ∨
      (a = .processing ∧ (b = .completed ∨ b = .failed)) := by
    intro a b h
    cases h with
    | claim_job => exact Or.inl ⟨rfl, rfl⟩
    | finish_completed => exact Or.inr ⟨rfl, Or.inl rfl⟩
    | finish_failed => exact Or.inr ⟨rfl, Or.inr rfl⟩
  have hterm : ∀ t b, statusRank t = 2 → Relation.ReflTransGen StatusStep t b → b = t := by
    intro t b ht h
    induction h with
    | refl => rfl
    | tail h1 h2 ih =>
      rcases hchar _ _ h2 with ⟨ha, _⟩ | ⟨ha, _⟩ <;> rw [ih] at ha <;>
        subst ha <;> simp [statusRank] at ht
  refine ⟨?_, hchar, ?_, ?_, ?_, ?_, ?_, ?_⟩
  · intro s; cases s
    · exact Or.inl rfl
    · exact Or.inr (Or.inl rfl)
    · exact Or.inr (Or.inr (Or.inl rfl))
    · exact Or.inr (Or.inr (Or.inr rfl))
  · intro b h; rcases hchar _ _ h with ⟨ha, _⟩ | ⟨ha, _⟩ <;> cases ha
  · intro b h; rcases hchar _ _ h with ⟨ha, _⟩ | ⟨ha, _⟩ <;> cases ha
  · intro b h
    rcases hchar _ _ h with ⟨_, hb⟩ | ⟨ha, _⟩
    · exact hb
    · cases ha
  · intro a b h
    induction h with
    | refl => exact le_refl _
    | tail h1 h2 ih =>
      refine le_trans ih ?_
      rcases hchar _ _ h2 with ⟨ha, hb⟩ | ⟨ha, hb⟩
      · subst ha; subst hb; simp [statusRank]
      · subst ha; rcases hb with hb | hb <;> subst hb <;> simp [statusRank]
  · intro b h; exact hterm _ _ rfl h
  · intro b h; exact hterm _ _ rfl h

/-- Witness for C3: the transition characterization instantiated at the
concrete step from queued into processing. -/
theorem status_lifecycle_witness :
    (JobStatus.queued = JobStatus.queued ∧ JobStatus.processing = JobStatus.processing) ∨
    (JobStatus.queued = JobStatus.processing ∧
      (JobStatus.processing = JobStatus.completed ∨ JobStatus.processing = JobStatus.failed)) :=
  status_lifecycle.2.1 .queued .processing StatusStep.claim_job

/-- Claim C4: a submitted evaluation request carries exactly the four
fields job_title, job_id, cv_document_id and project_document_id, the two
document ids are the ones from the preceding upload response, the job_title
is the computed title and the job_id the selected job id, and the
submission response becomes the displayed status and seeds polling with
its id. -/
theorem handleEvaluate_request_shape (s : EvalFormState) (u : DocumentUploadResponse)
    (b : EvaluateRequestBody) (h : handleEvaluateSubmit s u = .submitted b)
    (resp : EvaluationStatus) :
    b.job_title = effectiveJobTitle s ∧
    b.job_id = s.selectedJobId ∧
    b.cv_document_id = u.cv_document_id ∧
    b.project_document_id = u.project_document_id ∧
    (∀ b1 b2 : EvaluateRequestBody, b1.job_title = b2.job_title → b1.job_id = b2.job_id →
      b1.cv_document_id = b2.cv_document_id → b1.project_document_id = b2.project_document_id →
      b1 = b2) ∧
    (afterSubmitSuccess resp).displayedStatus = some resp ∧
    (afterSubmitSuccess resp).polledJobId = some resp.id := by
  have hb : b = ⟨effectiveJobTitle s, s.selectedJobId, u.cv_document_id,
      u.project_document_id⟩ := by
    unfold handleEvaluateSubmit at h
    split at h
    · cases h
    · split at h
      · cases h
      · split at h
        · cases h
        · cases h; rfl
  subst hb
  refine ⟨rfl, rfl, rfl, rfl, ?_, rfl, rfl⟩
  intro b1 b2 h1 h2 h3 h4
  cases b1; cases b2
  simp_all


/-- Witness for C4 at a concrete submission. -/
theorem handleEvaluate_request_shape_witness :
    (⟨"Backend Engineer", some 1, "doc-cv", "doc-proj"⟩ : EvaluateRequestBody).job_title =
        effectiveJobTitle sampleFormState ∧
    (⟨"Backend Engineer", some 1, "doc-cv", "doc-proj"⟩ : EvaluateRequestBody).job_id =
        sampleFormState.selectedJobId ∧
    (⟨"Backend Engineer", some 1, "doc-cv", "doc-proj"⟩ : EvaluateRequestBody).cv_document_id =
        sampleUpload.cv_document_id ∧
    (⟨"Backend Engineer", some 1, "doc-cv",
        "doc-proj"⟩ : EvaluateRequestBody).project_document_id =
        sampleUpload.project_document_id ∧
    (∀ b1 b2 : EvaluateRequestBody, b1.job_title = b2.job_title → b1.job_id = b2.job_id →
      b1.cv_document_id = b2.cv_document_id → b1.project_document_id = b2.project_document_id →
      b1 = b2) ∧
    (afterSubmitSuccess ⟨"ev-9", .queued, none, none, none, none, none⟩).displayedStatus =
        some ⟨"ev-9", .queued, none, none, none, none, none⟩ ∧
    (afterSubmitSuccess ⟨"ev-9", .queued, none, none, none, none, none⟩).polledJobId =
        some (EvaluationStatus.id ⟨"ev-9", .queued, none, none, none, none, none⟩) :=
  handleEvaluate_request_shape sampleFormState sampleUpload
    ⟨"Backend Engineer", some 1, "doc-cv", "doc-proj"⟩ (by decide)
    ⟨"ev-9", .queued, none, none, none, none, none⟩

/-- Claim C8 counterexample: with job id 0 selected (a selected job, since
the id is non-null) and a loaded detail titled "Engineer", the submitted
title is the trimmed custom title, not the detail title — `selectedJobId
&& ...` is falsy at the number 0. -/
theorem handleEvaluate_title_claim_cex :
    ¬ (∀ (s : EvalFormState) (d : JobDetail), s.selectedJobId.isSome = true →
        s.jobDetail = some d → d.title ≠ "" → effectiveJobTitle s = d.title) := by
  intro h
  have hc := h
    ⟨true, some ⟨"cv.pdf"⟩, some ⟨"report.pdf"⟩, some 0,
      some ⟨0, "c0", "Engineer", none, none, "t", "d", "r"⟩, "Custom"⟩
    ⟨0, "c0", "Engineer", none, none, "t", "d", "r"⟩ rfl rfl (by decide)
  exact absurd hc (by decide)

/-- Claim C8 (amended): the detail title is submitted when the selected job
id is truthy (non-null and nonzero), the detail is loaded and its title is
non-empty, regardless of the override input; the trimmed custom title is
used when the id is not truthy, the detail is not loaded, or its title is
empty; and when the resulting title is empty, the user is unauthenticated,
or either PDF is missing, no request is submitted. -/
theorem handleEvaluate_title_source (s : EvalFormState) :
    (∀ (d : JobDetail) (c : String), jsNumTruthy s.selectedJobId = true →
      s.jobDetail = some d → d.title ≠ "" →
      effectiveJobTitle { s with customJobTitle := c } = d.title) ∧
    ((jsNumTruthy s.selectedJobId = false ∨ s.jobDetail = none ∨
        (∃ d, s.jobDetail = some d ∧ d.title = "")) →
      effectiveJobTitle s = jsTrim s.customJobTitle) ∧
    (∀ u : DocumentUploadResponse,
      (s.isAuthenticated = false ∨ s.cvFile = none ∨ s.projectFile = none ∨
        effectiveJobTitle s = "") →
      ∀ b : EvaluateRequestBody, handleEvaluateSubmit s u ≠ .submitted b) := by
  refine ⟨?_, ?_, ?_⟩
  · intro d c ht hd hne
    simp [effectiveJobTitle, ht, hd, hne]
  · intro hfall
    rcases hfall with h | h | ⟨d, hd, hemp⟩
    · simp [effectiveJobTitle, h]
    · cases hjs : jsNumTruthy s.selectedJobId <;> simp [effectiveJobTitle, hjs, h]
    · cases hjs : jsNumTruthy s.selectedJobId <;> simp [effectiveJobTitle, hjs, hd, hemp]
  · intro u hblock b hsub
    unfold handleEvaluateSubmit at hsub
    split at hsub
    next hauth =>
      cases hsub
    next hauth =>
      split at hsub
      next hfiles =>
        cases hsub
      next hfiles =>
        split at hsub
        next htitle =>
          cases hsub
        next htitle =>
          rcases hblock with h | h | h | h
          · simp [h] at hauth
          · simp [h] at hfiles
          · simp [h] at hfiles
          · exact htitle h

/-- Witness for C8 at a concrete authenticated state with job 1 selected,
and at the same state with the CV file missing. -/
theorem handleEvaluate_title_source_witness :
    effectiveJobTitle { sampleFormState with customJobTitle := "Custom" } = "Backend Engineer" ∧
    (∀ b : EvaluateRequestBody,
      handleEvaluateSubmit { sampleFormState with cvFile := none } sampleUpload ≠
        .submitted b) :=
  ⟨(handleEvaluate_title_source sampleFormState).1
      ⟨1, "be-001", "Backend Engineer", some "Remote", none, "t", "d", "r"⟩ "Custom"
      (by decide) rfl (by decide),
   fun b => (handleEvaluate_title_source { sampleFormState with cvFile := none }).2.2
      sampleUpload (Or.inr (Or.inl rfl)) b⟩

/-- Claim C5: a successful poll of a non-terminal status schedules the next
poll 4000 ms later; the first terminal status stops polling, clears the
evaluating flag and refreshes the applications list; and in any polling run
every observed status before the last one is non-terminal, so polling never
continues past a terminal status. -/
theorem pollResult_terminal_stops (d : EvaluationStatus)
    (responses : List EvaluationStatus) :
    (isTerminal d.status = false → pollIteration d = .scheduleNext 4000) ∧
    (isTerminal d.status = true → ∃ t, pollIteration d = .stop true true t) ∧
    pollTrace responses =
      responses.takeWhile (fun r => !isTerminal r.status) ++
        (responses.dropWhile (fun r => !isTerminal r.status)).take 1 := by
  refine ⟨?_, ?_, ?_⟩
  · intro h
    simp [pollIteration, h]
  · intro h
    have hs : pollIteration d = .stop true true
        (if d.status = .completed then some .successCompleted
         else if jsStrTruthy d.error then some (.errorText (d.error.getD "")) else none) := by
      simp [pollIteration, h]
    exact ⟨_, hs⟩
  · induction responses with
    | nil => rfl
    | cons r rest ih =>
      by_cases h : isTerminal r.status
      · simp [pollTrace, h, List.takeWhile_cons, List.dropWhile_cons]
      · simp only [pollTrace, h, if_neg, Bool.not_false, List.takeWhile_cons,
          List.dropWhile_cons]
        simp [h, ih]

/-- Witness for C5: a queued response schedules, a completed one stops. -/
theorem pollResult_terminal_stops_witness :
    pollIteration ⟨"ev-9", .queued, none, none, none, none, none⟩ = .scheduleNext 4000 ∧
    ∃ t, pollIteration (pollResponse sampleCompletedJob) = .stop true true t :=
  ⟨(pollResult_terminal_stops ⟨"ev-9", .queued, none, none, none, none, none⟩ []).1 (by decide),
   (pollResult_terminal_stops (pollResponse sampleCompletedJob) []).2.1 (by decide)⟩

/-- Claim C6: when a failed poll payload carries a non-empty error string,
that string is raised as the error toast and polling stops; when a failed
payload has an absent or empty error, polling still stops, the flag is
cleared and the list refreshed, but no toast is raised. -/
theorem pollResult_failed_error_toast (d : EvaluationStatus) :
    (∀ e, d.status = .failed → d.error = some e → e ≠ "" →
      pollIteration d = .stop true true (some (.errorText e))) ∧
    (d.status = .failed → (d.error = none ∨ d.error = some "") →
      pollIteration d = .stop true true none) := by
  constructor
  · intro e hst herr hne
    simp [pollIteration, isTerminal, hst, jsStrTruthy, herr, hne]
  · intro hst herr
    rcases herr with h | h <;> simp [pollIteration, isTerminal, hst, jsStrTruthy, h]

/-- Witness for C6 at a failed job with error "boom" and at a failed job
with an absent error. -/
theorem pollResult_failed_error_toast_witness :
    pollIteration ⟨"ev-1", .failed, none, some "boom", none, none, none⟩ =
      .stop true true (some (.errorText "boom")) ∧
    pollIteration ⟨"ev-2", .failed, none, none, none, none, none⟩ =
      .stop true true none :=
  ⟨(pollResult_failed_error_toast ⟨"ev-1", .failed, none, some "boom", none, none, none⟩).1
      "boom" rfl rfl (by decide),
   (pollResult_failed_error_toast ⟨"ev-2", .failed, none, none, none, none, none⟩).2
      rfl (Or.inl rfl)⟩

/-- Claim C7: an EvaluationResult is determined by exactly the five
required fields and the three optional ones — agreement on those eight
fields is equality — and any combination of the five required values with
any optional values (absence included) is a representable result. -/
theorem evaluationResult_field_shape :
    (∀ a b : EvaluationResult,
      a.cv_match_rate = b.cv_match_rate → a.cv_feedback = b.cv_feedback →
      a.project_score = b.project_score → a.project_feedback = b.project_feedback →
      a.overall_summary = b.overall_summary →
      a.cv_parameter_scores = b.cv_parameter_scores →
      a.project_parameter_scores = b.project_parameter_scores →
      a.raw_context = b.raw_context → a = b) ∧
    (∀ (r ps : ℚ) (cf pf os : String) (cps pps : Option (List (String × ℚ)))
        (rc : Option (List (String × String))),
      ∃ x : EvaluationResult, x.cv_match_rate = r ∧ x.cv_feedback = cf ∧
        x.project_score = ps ∧ x.project_feedback = pf ∧ x.overall_summary = os ∧
        x.cv_parameter_scores = cps ∧ x.project_parameter_scores = pps ∧
        x.raw_context = rc) := by
  constructor
  · intro a b h1 h2 h3 h4 h5 h6 h7 h8
    cases a; cases b
    simp_all
  · intro r ps cf pf os cps pps rc
    exact ⟨⟨r, cf, ps, pf, os, cps, pps, rc⟩, rfl, rfl, rfl, rfl, rfl, rfl, rfl, rfl⟩

/-- Witness for C7: the extensionality part applied to two copies of the
sample result. -/
theorem evaluationResult_field_shape_witness : sampleResult = sampleResult :=
  evaluationResult_field_shape.1 sampleResult sampleResult rfl rfl rfl rfl rfl rfl rfl rfl

/-- Claim C9: the displayed page holds at most PAGE_SIZE jobs and is the
slice of the filtered list for the current page; totalPages is at least 1;
the invariant 1 ≤ currentPage ≤ totalPages holds initially and is
preserved by every event once the clamping effect has run; and every
displayed job comes from the fetched list and matches both search strings
case-insensitively. -/
theorem jobs_pagination_invariants :
    (∀ m : PageModel, (paginatedJobs m).length ≤ PAGE_SIZE) ∧
    (∀ m : PageModel,
      paginatedJobs m = (m.filtered.drop ((m.currentPage - 1) * PAGE_SIZE)).take PAGE_SIZE) ∧
    (∀ n : Nat, 1 ≤ totalPages n) ∧
    (1 ≤ initialPageModel.currentPage ∧ initialPageModel.currentPage ≤ initialPageModel.pages) ∧
    (∀ (m : PageModel) (e : PageEvent), 1 ≤ m.currentPage → m.currentPage ≤ m.pages →
      1 ≤ (stepPage m e).currentPage ∧ (stepPage m e).currentPage ≤ (stepPage m e).pages) ∧
    (∀ m : PageModel, ∀ j ∈ paginatedJobs m, j ∈ m.jobs ∧
      jsIncludes (jsToLower j.title) (jsToLower m.searchTitle) = true ∧
      jsIncludes (jsToLower (j.location.getD "")) (jsToLower m.searchLocation) = true) := by
  have hpages : ∀ n : Nat, 1 ≤ totalPages n := fun n => le_max_left 1 _
  have hclamp : ∀ m : PageModel, 1 ≤ m.currentPage →
      1 ≤ (clampPage m).currentPage ∧ (clampPage m).currentPage ≤ (clampPage m).pages := by
    intro m h1
    unfold clampPage
    by_cases h : m.currentPage > m.pages
    · simp only [h, if_pos]
      exact ⟨hpages _, le_refl _⟩
    · simp only [h, if_neg, not_false_iff]
      exact ⟨h1, not_lt.mp h⟩
  refine ⟨?_, ?_, hpages, ?_, ?_, ?_⟩
  · intro m
    exact List.length_take_le _ _
  · intro m
    rfl
  · exact ⟨le_refl 1, hpages 0⟩
  · intro m e h1 h2
    cases e with
    | setJobs js => exact hclamp _ h1
    | setFilters st sl => exact hclamp _ (le_refl 1)
    | prevPage => exact hclamp _ (le_max_left 1 _)
    | nextPage =>
      refine hclamp _ ?_
      have : 1 ≤ m.currentPage + 1 := Nat.le_succ_of_le h1
      exact le_min (hpages _) this
  · intro m j hj
    have hj2 : j ∈ m.filtered := List.mem_of_mem_drop (List.mem_of_mem_take hj)
    have := List.mem_filter.mp hj2
    refine ⟨this.1, ?_, ?_⟩
    · exact (Bool.and_eq_true _ _ ▸ this.2).1
    · exact (Bool.and_eq_true _ _ ▸ this.2).2

/-- Witness for C9: the invariant is preserved from the initial model by a
Next click, and the sample job displayed on page 1 of the sample model is a
fetched job matching the empty filters. -/
theorem jobs_pagination_invariants_witness :
    (1 ≤ (stepPage initialPageModel .nextPage).currentPage ∧
      (stepPage initialPageModel .nextPage).currentPage ≤
        (stepPage initialPageModel .nextPage).pages) ∧
    (sampleJob ∈ samplePageModel.jobs ∧
      jsIncludes (jsToLower sampleJob.title) (jsToLower samplePageModel.searchTitle) = true ∧
      jsIncludes (jsToLower (sampleJob.location.getD ""))
        (jsToLower samplePageModel.searchLocation) = true) :=
  ⟨jobs_pagination_invariants.2.2.2.2.1 initialPageModel .nextPage (by decide) (by decide),
   jobs_pagination_invariants.2.2.2.2.2 samplePageModel sampleJob (by decide)⟩

/-- Claim C10: after logout the tokens and email are null, the user is not
authenticated and the three auth keys are gone from localStorage; after
login the two token keys hold the new pair and the user is authenticated
exactly when the access token is non-empty; and clearAuthHeaders removes
only the two token keys, leaving every other key (userEmail included)
unchanged. -/
theorem auth_state_effects (s : AuthState) (t : AuthTokens) (e : Option String)
    (st : Store) (k : String) :
    (logout s).tokens = none ∧
    (logout s).userEmail = none ∧
    isAuthenticated (logout s) = false ∧
    (logout s).storage "accessToken" = none ∧
    (logout s).storage "refreshToken" = none ∧
    (logout s).storage "userEmail" = none ∧
    (login s t e).storage "accessToken" = some t.access ∧
    (login s t e).storage "refreshToken" = some t.refresh ∧
    (isAuthenticated (login s t e) = true ↔ t.access ≠ "") ∧
    clearAuthHeaders st "accessToken" = none ∧
    clearAuthHeaders st "refreshToken" = none ∧
    (k ≠ "accessToken" → k ≠ "refreshToken" → clearAuthHeaders st k = st k) := by
  refine ⟨rfl, rfl, rfl, ?_, ?_, ?_, ?_, ?_, ?_, ?_, ?_, ?_⟩
  · simp [logout, removeItem, clearAuthHeaders]
  · simp [logout, removeItem, clearAuthHeaders]
  · simp [logout, removeItem, clearAuthHeaders]
  · cases he : jsStrTruthy e <;> simp [login, he, setItem]
  · cases he : jsStrTruthy e <;> simp [login, he, setItem]
  · cases he : jsStrTruthy e <;> simp [login, he, isAuthenticated]
  · simp [clearAuthHeaders, removeItem]
  · simp [clearAuthHeaders, removeItem]
  · intro h1 h2
    simp [clearAuthHeaders, removeItem, h1, h2]

/-- Witness for C10: the frame property of clearAuthHeaders evaluated at
the userEmail key of the sample store. -/
theorem auth_state_effects_witness :
    clearAuthHeaders sampleStore "userEmail" = sampleStore "userEmail" :=
  (auth_state_effects sampleAuthState ⟨"a", "r"⟩ none sampleStore
    "userEmail").2.2.2.2.2.2.2.2.2.2.2 (by decide) (by decide)

end JobScreening
